import Mathlib

/-
Verification of the identity flag-resolution service (flagsmith API sample).

The definitions below are a shallow embedding of the Python source under
`api/`: the SDK identity views (`environments/identities/views.py`), the
environment-key authentication class (`environments/authentication.py`) and
the webhook integration wrapper (`integrations/webhook/webhook.py`).
Django model methods that are not part of the sample source (the Identity and
Environment models, the DRF serializers) are modelled from the specification
and are marked as such in their doc comments.
-/

set_option autoImplicit false

namespace Flagsmith

/-- A JSON-like value, the shape of DRF response bodies and webhook payloads.
Objects keep their key order, as Python dict literals do. -/
inductive Json where
  | null : Json
  | bool : Bool → Json
  | num : Nat → Json
  | str : String → Json
  | arr : List Json → Json
  | obj : List (String × Json) → Json

/-- The keys of a JSON object, in order; other values have no keys. -/
def Json.objKeys : Json → List String
  | Json.obj l => l.map Prod.fst
  | _ => []

/-- First value bound to a key in a JSON object, if any. -/
def Json.objLookup (j : Json) (key : String) : Option Json :=
  match j with
  | Json.obj l => (l.find? (fun p => p.1 == key)).map Prod.snd
  | _ => none

/- ### Character-list string helpers

Python string primitives used by the source, modelled over `List Char`:
`str.startswith` / `str.endswith` are prefix tests on the character sequence,
`needle in haystack` is contiguous-substring search, and
`s.replace(c, "")` for a single character deletes every occurrence of it. -/

/-- Boolean prefix test on character lists (Python `str.startswith`). -/
def beginsWithL : List Char → List Char → Bool
  | [], _ => true
  | _ :: _, [] => false
  | a :: ps, b :: ss => a == b && beginsWithL ps ss

/-- Boolean contiguous-substring test on character lists (Python `in`). -/
def containsL (n : List Char) : List Char → Bool
  | [] => n.isEmpty
  | c :: rest => beginsWithL n (c :: rest) || containsL n rest

/-- Python `s.startswith(pat)`. -/
def str_begins_with (s pat : String) : Bool :=
  beginsWithL pat.toList s.toList

/-- Python `s.endswith(pat)`. -/
def str_ends_with (s pat : String) : Bool :=
  beginsWithL pat.toList.reverse s.toList.reverse

/-- Python `s.replace(chr, "")`: delete every occurrence of a character. -/
def remove_char (chr : Char) (s : String) : String :=
  String.mk (s.toList.filter (fun c => !(c == chr)))

/-- Python `s.lower()` restricted to the per-character lowering used for
case-insensitive comparison. -/
def lowerL (s : List Char) : List Char :=
  s.map Char.toLower

/- ### Identity search expressions (`IdentityViewSet` static helpers)

`IdentityViewSet._get_search_expression_dynamo` builds a DynamoDB key
condition on the `identifier` attribute; `_get_search_kwargs_django` builds a
Django ORM filter on the `identifier` field. -/

/-- A DynamoDB key condition as built by `boto3` `Key("identifier").eq` /
`.begins_with`. -/
inductive DynamoKeyCondition where
  | eq (attr : String) (value : String)
  | begins_with (attr : String) (value : String)
  deriving Repr, DecidableEq

/-- A Django ORM filter on the identity `identifier` field:
`identifier__exact` or `identifier__icontains`. -/
inductive DjangoIdentifierFilter where
  | exact (value : String)
  | icontains (value : String)
  deriving Repr, DecidableEq

/-- `IdentityViewSet._get_search_expression_dynamo` from
`environments/identities/views.py`. -/
def get_search_expression_dynamo (search_query : String) : DynamoKeyCondition :=
  if str_begins_with search_query "\"" && str_ends_with search_query "\"" then
    DynamoKeyCondition.eq "identifier" (remove_char '"' search_query)
  else
    DynamoKeyCondition.begins_with "identifier" search_query

/-- `IdentityViewSet._get_search_kwargs_django` from
`environments/identities/views.py`. -/
def get_search_kwargs_django (search_query : String) : DjangoIdentifierFilter :=
  if str_begins_with search_query "\"" && str_ends_with search_query "\"" then
    DjangoIdentifierFilter.exact (remove_char '"' search_query)
  else
    DjangoIdentifierFilter.icontains search_query

/-- Whether an identifier satisfies a Django identifier filter:
`identifier__exact` is equality, `identifier__icontains` is case-insensitive
substring containment. -/
def djangoFilterMatches (f : DjangoIdentifierFilter) (identifier : String) : Bool :=
  match f with
  | DjangoIdentifierFilter.exact v => identifier == v
  | DjangoIdentifierFilter.icontains v =>
      containsL (lowerL v.toList) (lowerL identifier.toList)

/-- Whether an identifier satisfies a DynamoDB key condition on the
`identifier` attribute: `eq` is equality, `begins_with` is a prefix test. -/
def dynamoConditionMatches (c : DynamoKeyCondition) (identifier : String) : Bool :=
  match c with
  | DynamoKeyCondition.eq _ v => identifier == v
  | DynamoKeyCondition.begins_with _ v => beginsWithL v.toList identifier.toList

/- ### Data model -/

/-- An organisation, as far as the SDK path reads it: the kill switch that
stops it from serving flags. -/
structure Organisation where
  stop_serving_flags : Bool
  deriving Repr, DecidableEq

/-- A project: owns the storage-backend flag and the organisation. -/
structure Project where
  enable_dynamo_db : Bool
  organisation : Organisation
  deriving Repr, DecidableEq

/-- A feature definition (name unique per project). -/
structure Feature where
  id : Nat
  name : String
  deriving Repr, DecidableEq

/-- A feature state: a feature bound to an enabled flag and a value. -/
structure FeatureState where
  feature : Feature
  enabled : Bool
  value : Option String
  deriving Repr, DecidableEq

/-- A key/value trait of an identity. -/
structure Trait where
  trait_key : String
  trait_value : String
  deriving Repr, DecidableEq

/-- An environment: API key, project, and its environment-default feature
states (one per feature defined in the environment). -/
structure Environment where
  api_key : String
  project : Project
  feature_defaults : List FeatureState
  deriving Repr, DecidableEq

/-- An identity: an identifier unique within its environment, its traits and
its identity-scope feature-state overrides. -/
structure Identity where
  identifier : String
  environment_api_key : String
  identity_traits : List Trait
  identity_overrides : List FeatureState
  deriving Repr, DecidableEq

/-- An HTTP response: status code plus JSON body. -/
structure Response where
  status : Nat
  body : Json

/- ### Override resolution (spec-modelled: `Identity.get_all_feature_states`
lives in the Django models, outside the sample source) -/

/-- Modelled from the spec: the Override Resolver (§4.3). Missing from the
sample source (`Identity.get_all_feature_states` is a Django model method).
Per feature, precedence is identity override, then the first matched
segment's override in priority order, then the environment default; every
environment-defined feature appears exactly once, in definition order. -/
def resolve (environment_defaults : List FeatureState)
    (matched_segment_overrides : List (List FeatureState))
    (identity_overrides : List FeatureState) : List FeatureState :=
  environment_defaults.map (fun fs =>
    match identity_overrides.find? (fun o => o.feature.name == fs.feature.name) with
    | some o => o
    | none =>
        match (matched_segment_overrides.filterMap
            (fun seg => seg.find? (fun o => o.feature.name == fs.feature.name))).head? with
        | some o => o
        | none => fs)

/-- Modelled from the spec: `Identity.get_all_feature_states` (a Django model
method, not in the sample source) resolves the environment defaults against
the overrides of the segments the identity matches (priority-ordered) and the
identity's own overrides. The matched segments' override lists are passed in
explicitly. -/
def get_all_feature_states (env : Environment) (identity : Identity)
    (matched_segment_overrides : List (List FeatureState)) : List FeatureState :=
  resolve env.feature_defaults matched_segment_overrides identity.identity_overrides

/- ### Serializers (spec-modelled: DRF serializer classes are outside the
sample source) -/

/-- Modelled from the spec: `FeatureStateSerializerFull` (not in the sample
source) serializes a feature state as its feature name, enabled flag and
value (§6 response shape). -/
def serializeFeatureState (fs : FeatureState) : Json :=
  Json.obj
    [("feature", Json.str fs.feature.name),
     ("enabled", Json.bool fs.enabled),
     ("value", match fs.value with
       | some v => Json.str v
       | none => Json.null)]

/-- Modelled from the spec: `TraitSerializerBasic` (not in the sample source)
serializes a trait as its key and value. -/
def serializeTrait (t : Trait) : Json :=
  Json.obj
    [("trait_key", Json.str t.trait_key),
     ("trait_value", Json.str t.trait_value)]

/- ### Identity store (spec-modelled: the Django ORM `get_or_create` and the
relational/document stores are outside the sample source) -/

/-- Whether a stored identity has the given environment API key and
identifier. -/
def identityMatches (environment_api_key identifier : String) (i : Identity) : Bool :=
  i.environment_api_key == environment_api_key && i.identifier == identifier

/-- Modelled from the spec: `Identity.objects.get_or_create` (Django ORM, not
in the sample source). Returns the existing identity for the
`(environment, identifier)` key unchanged, or lazily creates one with no
traits and no overrides. The result is `(identity, created, store)`. -/
def get_or_create (store : List Identity) (environment_api_key identifier : String) :
    Identity × Bool × List Identity :=
  match store.find? (identityMatches environment_api_key identifier) with
  | some i => (i, false, store)
  | none =>
      let created : Identity :=
        { identifier := identifier
          environment_api_key := environment_api_key
          identity_traits := []
          identity_overrides := [] }
      (created, true, store ++ [created])

/- ### The SDK identity resolution view (`SDKIdentities` in
`environments/identities/views.py`) -/

/-- `SDKIdentities._get_all_feature_states_for_user_response`: resolves all
feature states for the identity, serializes flags and traits, and answers
200 with a body holding exactly the keys `flags` and `traits`. (The
`identify_integrations` side effect at the same spot is modelled separately
with the webhook wrapper.) -/
def get_all_feature_states_for_user_response (env : Environment) (identity : Identity)
    (matched_segment_overrides : List (List FeatureState)) : Response :=
  { status := 200
    body := Json.obj
      [("flags", Json.arr
          ((get_all_feature_states env identity matched_segment_overrides).map
            serializeFeatureState)),
       ("traits", Json.arr (identity.identity_traits.map serializeTrait))] }

/-- `SDKIdentities._get_single_feature_state_response`: scans the identity's
feature states for the first one whose feature has the requested name;
answers 200 with that flag serialized, or 404 with a detail message. -/
def get_single_feature_state_response (env : Environment) (identity : Identity)
    (matched_segment_overrides : List (List FeatureState)) (feature_name : String) :
    Response :=
  match (get_all_feature_states env identity matched_segment_overrides).find?
      (fun fs => fs.feature.name == feature_name) with
  | some fs => { status := 200, body := serializeFeatureState fs }
  | none =>
      { status := 404
        body := Json.obj [("detail", Json.str "Given feature not found")] }

/-- `SDKIdentities.get`: reads the `identifier` query parameter (absent is
modelled as `none`; Python falsiness makes the empty string behave like
absence), answers a bare 200 `detail` response when it is missing,
otherwise gets-or-creates the identity and dispatches on the `feature`
query parameter. Returns the response together with the resulting identity
store. -/
def SDKIdentities_get (store : List Identity) (env : Environment)
    (identifier_param feature_param : Option String)
    (matched_segment_overrides : List (List FeatureState)) :
    Response × List Identity :=
  let identifier := identifier_param.getD ""
  if identifier == "" then
    ({ status := 200
       body := Json.obj [("detail", Json.str "Missing identifier")] }, store)
  else
    let goc := get_or_create store env.api_key identifier
    let identity := goc.1
    let store2 := goc.2.2
    let feature_name := feature_param.getD ""
    if feature_name == "" then
      (get_all_feature_states_for_user_response env identity
        matched_segment_overrides, store2)
    else
      (get_single_feature_state_response env identity matched_segment_overrides
        feature_name, store2)

/- ### Environment key authentication (`environments/authentication.py`) -/

/-- Modelled from the spec: `Environment.get_from_cache` (a model method on
the read-through environment cache, not in the sample source) resolves an
API key to its environment; a missing header or unknown key resolves to
nothing. -/
def get_from_cache (environments : List Environment) (api_key : Option String) :
    Option Environment :=
  match api_key with
  | none => none
  | some k => environments.find? (fun e => e.api_key == k)

/-- `EnvironmentKeyAuthentication.authenticate`: raises `AuthenticationFailed`
(modelled as `Except.error` with the message) when the key does not resolve,
or when the environment's organisation has `stop_serving_flags` set;
otherwise attaches the resolved environment to the request (`Except.ok`). -/
def authenticate (environments : List Environment) (api_key : Option String) :
    Except String Environment :=
  match get_from_cache environments api_key with
  | none => Except.error "Invalid or missing Environment Key"
  | some environment =>
      if environment.project.organisation.stop_serving_flags then
        Except.error "Organisation is disabled from serving flags."
      else
        Except.ok environment

/- ### Admin `IdentityViewSet` backend dispatch
(`environments/identities/views.py`) -/

/-- The document-store composite key `{environment_api_key}_{identifier}`. -/
def composite_key (environment_api_key identifier : String) : String :=
  environment_api_key ++ "_" ++ identifier

/-- The storage call an `IdentityViewSet` operation performs: either a
DynamoDB (document-store) call or a Django ORM (relational) call. -/
inductive IdentityBackendCall where
  | get_item_dynamodb (key : String)
  | django_get (environment_api_key identifier : String)
  | query_items_dynamodb
  | django_queryset_list
  | put_item_dynamodb (environment_api_key identifier : String)
  | django_save (environment_api_key identifier : String)
  | delete_in_dynamodb (key : String)
  | django_delete (environment_api_key identifier : String)
  deriving Repr, DecidableEq

/-- Whether a backend call goes to the document store. -/
def IdentityBackendCall.uses_dynamo : IdentityBackendCall → Bool
  | IdentityBackendCall.get_item_dynamodb _ => true
  | IdentityBackendCall.query_items_dynamodb => true
  | IdentityBackendCall.put_item_dynamodb _ _ => true
  | IdentityBackendCall.delete_in_dynamodb _ => true
  | _ => false

/-- `IdentityViewSet.get_object`: DynamoDB point lookup by composite key when
the project enables DynamoDB, otherwise a Django `get` by environment and
identifier. -/
def IdentityViewSet_get_object (env : Environment) (identifier : String) :
    IdentityBackendCall :=
  if env.project.enable_dynamo_db then
    IdentityBackendCall.get_item_dynamodb (composite_key env.api_key identifier)
  else
    IdentityBackendCall.django_get env.api_key identifier

/-- `IdentityViewSet.list`: the relational queryset unless the project
enables DynamoDB, in which case the DynamoDB query path. -/
def IdentityViewSet_list (env : Environment) : IdentityBackendCall :=
  if env.project.enable_dynamo_db then
    IdentityBackendCall.query_items_dynamodb
  else
    IdentityBackendCall.django_queryset_list

/-- `IdentityViewSet.perform_create`: DynamoDB `put_item` when the project
enables DynamoDB, otherwise a relational save. -/
def IdentityViewSet_perform_create (env : Environment) (identifier : String) :
    IdentityBackendCall :=
  if env.project.enable_dynamo_db then
    IdentityBackendCall.put_item_dynamodb env.api_key identifier
  else
    IdentityBackendCall.django_save env.api_key identifier

/-- `IdentityViewSet.perform_update`: same branch as `perform_create`. -/
def IdentityViewSet_perform_update (env : Environment) (identifier : String) :
    IdentityBackendCall :=
  if env.project.enable_dynamo_db then
    IdentityBackendCall.put_item_dynamodb env.api_key identifier
  else
    IdentityBackendCall.django_save env.api_key identifier

/-- `IdentityViewSet.perform_destroy`: DynamoDB delete by the instance's
composite key when the project enables DynamoDB, otherwise the relational
delete. -/
def IdentityViewSet_perform_destroy (env : Environment) (inst : Identity) :
    IdentityBackendCall :=
  if env.project.enable_dynamo_db then
    IdentityBackendCall.delete_in_dynamodb
      (composite_key inst.environment_api_key inst.identifier)
  else
    IdentityBackendCall.django_delete inst.environment_api_key inst.identifier

/- ### Dual-store refinement (spec-modelled: the concrete stores live behind
the Django ORM and the DynamoDB wrapper, outside the sample source) -/

/-- The document key under which an identity is stored. -/
def doc_key (i : Identity) : String :=
  composite_key i.environment_api_key i.identifier

/-- Modelled from the spec: the relational backend's point lookup by
`(environment, identifier)`. -/
def rel_get (store : List Identity) (environment_api_key identifier : String) :
    Option Identity :=
  store.find? (identityMatches environment_api_key identifier)

/-- Modelled from the spec: the document-store representation of a relational
store — one document per row, keyed by the composite key. -/
def doc_store_of (store : List Identity) : List (String × Identity) :=
  store.map (fun i => (doc_key i, i))

/-- Modelled from the spec: the document backend's point lookup by composite
key. -/
def doc_get (docs : List (String × Identity)) (key : String) : Option Identity :=
  (docs.find? (fun p => p.1 == key)).map Prod.snd

/-- Modelled from the spec: relational create appends a row. -/
def rel_create (store : List Identity) (i : Identity) : List Identity :=
  store ++ [i]

/-- Modelled from the spec: document-store put appends the document under its
composite key. -/
def doc_put (docs : List (String × Identity)) (i : Identity) :
    List (String × Identity) :=
  docs ++ [(doc_key i, i)]

/-- Modelled from the spec: relational delete removes the rows with the given
`(environment, identifier)` key. -/
def rel_delete (store : List Identity) (environment_api_key identifier : String) :
    List Identity :=
  store.filter (fun i => !(identityMatches environment_api_key identifier i))

/-- Modelled from the spec: document-store delete removes the documents under
the given composite key. -/
def doc_delete (docs : List (String × Identity)) (key : String) :
    List (String × Identity) :=
  docs.filter (fun p => !(p.1 == key))

/- ### Webhook integration wrapper (`integrations/webhook/webhook.py`) -/

/-- A webhook sink configuration, as held by `WebhookWrapper.__init__`. -/
structure WebhookWrapper where
  url : String
  secret : String
  deriving Repr, DecidableEq

/-- A segment as the webhook `SegmentSerializer` sees it: id, name, and
whether the identity is a member. -/
structure SegmentInfo where
  id : Nat
  name : String
  member : Bool
  deriving Repr, DecidableEq

/-- Serialization of a segment by the webhook `SegmentSerializer`
(`integrations/webhook/serializers.py`): fields `member`, `id`, `name`,
with `member` computed from `does_identity_match`. -/
def serializeSegment (s : SegmentInfo) : Json :=
  Json.obj
    [("member", Json.bool s.member),
     ("id", Json.num s.id),
     ("name", Json.str s.name)]

/-- A side effect performed by the webhook wrapper: an HTTP POST (with the
timeout the call passes, or `none` when the call passes no timeout, which in
`requests` means wait forever), a log line, or a `breakpoint()` stop that
suspends the process on a debugger prompt. -/
inductive WebhookEffect where
  | http_post (url : String) (timeout_seconds : Option Nat)
  | log (msg : String)
  | debugger_break
  deriving Repr, DecidableEq

/-- Modelled from the spec: `FeatureState.get_feature_state_value` (a Django
model method, not in the sample source) yields the feature state's resolved
value for the identity; for the standard features exercised here it is the
stored value. -/
def get_feature_state_value (fs : FeatureState) (_identity : Identity) :
    Option String :=
  fs.value

/-- The per-feature entry of the `feature_properties` dict built (and then
never used) by `WebhookWrapper.generate_user_data`: the value when the state
is enabled and the value is truthy, otherwise the enabled flag. -/
def feature_property (identity : Identity) (fs : FeatureState) : Json :=
  match get_feature_state_value fs identity with
  | some v => if fs.enabled && !(v == "") then Json.str v else Json.bool fs.enabled
  | none => Json.bool fs.enabled

/-- `WebhookWrapper.generate_user_data`: builds the (unused)
`feature_properties` dict, serializes flags, traits and segments, assembles
the payload with keys `identity`, `traits`, `flags`, `segments` — and then
executes a leftover `breakpoint()` before returning. The result pairs the
effect trace with the returned payload. -/
def generate_user_data (identity : Identity) (feature_states : List FeatureState)
    (segments : List SegmentInfo) : List WebhookEffect × Json :=
  let _feature_properties :=
    feature_states.map (fun fs => (fs.feature.name, feature_property identity fs))
  let data := Json.obj
    [("identity", Json.str identity.identifier),
     ("traits", Json.arr (identity.identity_traits.map serializeTrait)),
     ("flags", Json.arr (feature_states.map serializeFeatureState)),
     ("segments", Json.arr (segments.map serializeSegment))]
  ([WebhookEffect.debugger_break], data)

/-- `WebhookWrapper._identify_user`: posts the user data to the sink URL with
`requests.post(self.url, json=user_data)` — no timeout argument — and logs
the response code. -/
def identify_user (w : WebhookWrapper) (_user_data : Json) : List WebhookEffect :=
  [WebhookEffect.http_post w.url none,
   WebhookEffect.log "Sent event to Webhook. Response code was: %s"]

/- ### Helper lemmas -/

/-- With no matched segments and no identity overrides, resolution is the
identity on the environment defaults. -/
theorem resolve_no_overrides (d : List FeatureState) : resolve d [] [] = d := by
  induction d with
  | nil => rfl
  | cons a t ih =>
      show a :: resolve t [] [] = a :: t
      rw [ih]

/-- The freshly created identity matches its own key. -/
theorem identityMatches_created (k ident : String) :
    identityMatches k ident
      { identifier := ident, environment_api_key := k,
        identity_traits := [], identity_overrides := [] } = true := by
  simp [identityMatches]

/-- Claim C1: a resolution GET with an identifier and no feature query
parameter, for a brand-new identity (absent from the store, hence created
with no traits and no identity overrides) and no segment overrides, returns
a 200 response whose body has exactly the keys `flags` and `traits`, where
`flags` serializes the environment defaults one per defined feature,
unmodified, and `traits` serializes the empty trait list. -/
theorem C1_brand_new_identity_gets_environment_defaults
    (store : List Identity) (env : Environment) (identifier : String)
    (h_ne : ¬ identifier = "")
    (h_absent : store.find? (identityMatches env.api_key identifier) = none) :
    SDKIdentities_get store env (some identifier) none []
      = ({ status := 200
           body := Json.obj
             [("flags", Json.arr (env.feature_defaults.map serializeFeatureState)),
              ("traits", Json.arr [])] },
         store ++ [{ identifier := identifier, environment_api_key := env.api_key,
                     identity_traits := [], identity_overrides := [] }]) := by
  simp [SDKIdentities_get, get_or_create, h_absent, h_ne,
    get_all_feature_states_for_user_response, get_all_feature_states,
    resolve_no_overrides]

/- ### Concrete fixtures (mirroring the integration-test fixtures) -/

/-- The standard feature `feature_1` from the test fixtures. -/
def feature1 : Feature := { id := 1, name := "feature_1" }

/-- The environment-default state of `feature_1`: disabled, value
`feature_1_value`. -/
def featureState1 : FeatureState :=
  { feature := feature1, enabled := false, value := some "feature_1_value" }

/-- An organisation that serves flags. -/
def org0 : Organisation := { stop_serving_flags := false }

/-- A relational-backend project under `org0`. -/
def project0 : Project := { enable_dynamo_db := false, organisation := org0 }

/-- A test environment with a single default feature state. -/
def env0 : Environment :=
  { api_key := "key0", project := project0, feature_defaults := [featureState1] }

/-- Witness for claim C1 at the concrete environment `env0`, an empty store
and identifier `user_1_test`. -/
theorem C1_brand_new_identity_gets_environment_defaults_witness :
    (¬ "user_1_test" = "")
    ∧ (([] : List Identity).find? (identityMatches env0.api_key "user_1_test") = none)
    ∧ SDKIdentities_get [] env0 (some "user_1_test") none []
        = ({ status := 200
             body := Json.obj
               [("flags", Json.arr (env0.feature_defaults.map serializeFeatureState)),
                ("traits", Json.arr [])] },
           [] ++ [{ identifier := "user_1_test", environment_api_key := env0.api_key,
                    identity_traits := [], identity_overrides := [] }]) :=
  ⟨by decide, rfl,
    C1_brand_new_identity_gets_environment_defaults [] env0 "user_1_test"
      (by decide) rfl⟩

/-- Claim C9: a resolution GET whose identifier parameter is absent or empty
answers body `detail: Missing identifier` with HTTP status 200 (DRF's
default, not 400) and leaves the identity store unchanged. -/
theorem C9_missing_identifier_is_200_detail
    (store : List Identity) (env : Environment) (feature_param : Option String)
    (matched_segment_overrides : List (List FeatureState)) :
    SDKIdentities_get store env none feature_param matched_segment_overrides
      = ({ status := 200
           body := Json.obj [("detail", Json.str "Missing identifier")] }, store)
    ∧ SDKIdentities_get store env (some "") feature_param matched_segment_overrides
      = ({ status := 200
           body := Json.obj [("detail", Json.str "Missing identifier")] }, store)
    ∧ (200 : Nat) ≠ 400 := by
  refine ⟨rfl, rfl, by decide⟩

/-- Claim C6: `get_or_create` is idempotent: starting from a store with no
identity for the key, the first call creates one, the second call returns
that same identity without creating a duplicate and leaves the store
unchanged, and the store holds exactly one identity for the key. -/
theorem C6_get_or_create_idempotent
    (store : List Identity) (environment_api_key identifier : String)
    (h_absent : store.find? (identityMatches environment_api_key identifier) = none) :
    (get_or_create store environment_api_key identifier).2.1 = true
    ∧ get_or_create (get_or_create store environment_api_key identifier).2.2
        environment_api_key identifier
      = ((get_or_create store environment_api_key identifier).1, false,
         (get_or_create store environment_api_key identifier).2.2)
    ∧ ((get_or_create store environment_api_key identifier).2.2.filter
        (identityMatches environment_api_key identifier)).length = 1 := by
  have hnone := List.find?_eq_none.mp h_absent
  have hfilter : store.filter (identityMatches environment_api_key identifier) = [] := by
    rw [List.filter_eq_nil_iff]
    exact hnone
  simp [get_or_create, h_absent, identityMatches_created, hfilter]

/-- A concrete stored identity used by witnesses: identifier `other` in
environment `key0`, no traits, no overrides. -/
def identityOther : Identity :=
  { identifier := "other", environment_api_key := "key0",
    identity_traits := [], identity_overrides := [] }

/-- Witness for claim C6 at a concrete one-identity store and a fresh key. -/
theorem C6_get_or_create_idempotent_witness :
    (([identityOther] : List Identity).find?
        (identityMatches "key0" "user_1_test") = none)
    ∧ (get_or_create [identityOther] "key0" "user_1_test").2.1 = true
    ∧ get_or_create (get_or_create [identityOther] "key0" "user_1_test").2.2
        "key0" "user_1_test"
      = ((get_or_create [identityOther] "key0" "user_1_test").1, false,
         (get_or_create [identityOther] "key0" "user_1_test").2.2)
    ∧ ((get_or_create [identityOther] "key0" "user_1_test").2.2.filter
        (identityMatches "key0" "user_1_test")).length = 1 :=
  ⟨by decide,
    (C6_get_or_create_idempotent _ "key0" "user_1_test" (by decide)).1,
    (C6_get_or_create_idempotent _ "key0" "user_1_test" (by decide)).2.1,
    (C6_get_or_create_idempotent _ "key0" "user_1_test" (by decide)).2.2⟩

/-- Claim C4: authentication fails exactly when the supplied key resolves to
no environment (missing or invalid) or the resolved environment's
organisation is disabled from serving flags; otherwise it attaches the
resolved environment. -/
theorem C4_environment_key_authentication_iff
    (environments : List Environment) (api_key : Option String) :
    ((∃ msg, authenticate environments api_key = Except.error msg) ↔
      (get_from_cache environments api_key = none ∨
        ∃ e, get_from_cache environments api_key = some e ∧
          e.project.organisation.stop_serving_flags = true))
    ∧ (∀ e, authenticate environments api_key = Except.ok e ↔
        (get_from_cache environments api_key = some e ∧
          e.project.organisation.stop_serving_flags = false)) := by
  cases h : get_from_cache environments api_key with
  | none => simp [authenticate, h]
  | some e =>
      by_cases hs : e.project.organisation.stop_serving_flags <;>
        simp [authenticate, h, hs]

/-- Witness for claim C4 at the concrete environment list `[env0]` and its
key. -/
theorem C4_environment_key_authentication_iff_witness :
    ((∃ msg, authenticate [env0] (some "key0") = Except.error msg) ↔
      (get_from_cache [env0] (some "key0") = none ∨
        ∃ e, get_from_cache [env0] (some "key0") = some e ∧
          e.project.organisation.stop_serving_flags = true))
    ∧ (∀ e, authenticate [env0] (some "key0") = Except.ok e ↔
        (get_from_cache [env0] (some "key0") = some e ∧
          e.project.organisation.stop_serving_flags = false)) :=
  C4_environment_key_authentication_iff [env0] (some "key0")

/-- Claim C5: with a nonempty `feature` query parameter, resolution for an
existing identity answers the first matching flag's evaluation with status
200 when some feature state carries that feature name, and a 404 not-found
condition when none does. -/
theorem C5_feature_query_narrows_or_404
    (store : List Identity) (env : Environment) (identifier feature_name : String)
    (identity : Identity) (matched_segment_overrides : List (List FeatureState))
    (h_ident : ¬ identifier = "") (h_feat : ¬ feature_name = "")
    (h_found : store.find? (identityMatches env.api_key identifier) = some identity) :
    ((∃ fs ∈ get_all_feature_states env identity matched_segment_overrides,
        fs.feature.name = feature_name) →
      ∃ fs ∈ get_all_feature_states env identity matched_segment_overrides,
        fs.feature.name = feature_name ∧
        SDKIdentities_get store env (some identifier) (some feature_name)
            matched_segment_overrides
          = ({ status := 200, body := serializeFeatureState fs }, store))
    ∧ ((∀ fs ∈ get_all_feature_states env identity matched_segment_overrides,
        fs.feature.name ≠ feature_name) →
      SDKIdentities_get store env (some identifier) (some feature_name)
          matched_segment_overrides
        = ({ status := 404
             body := Json.obj [("detail", Json.str "Given feature not found")] },
           store)) := by
  have hview : SDKIdentities_get store env (some identifier) (some feature_name)
      matched_segment_overrides
      = (get_single_feature_state_response env identity matched_segment_overrides
          feature_name, store) := by
    simp [SDKIdentities_get, get_or_create, h_found, h_ident, h_feat]
  cases hfind : (get_all_feature_states env identity
      matched_segment_overrides).find? (fun fs => fs.feature.name == feature_name) with
  | none =>
      constructor
      · intro hex
        rcases hex with ⟨fs, hmem, hname⟩
        have := List.find?_eq_none.mp hfind fs hmem
        simp [hname] at this
      · intro _
        rw [hview]
        simp [get_single_feature_state_response, hfind]
  | some fs =>
      constructor
      · intro _
        refine ⟨fs, List.mem_of_find?_eq_some hfind, ?_, ?_⟩
        · have := List.find?_some hfind
          simpa using this
        · rw [hview]
          simp [get_single_feature_state_response, hfind]
      · intro hall
        have hmem := List.mem_of_find?_eq_some hfind
        have hp := List.find?_some hfind
        have : fs.feature.name = feature_name := by simpa using hp
        exact absurd this (hall fs hmem)

/-- Witness for claim C5 at `env0`, the store holding the brand-new identity
for `user_1_test`, and the defined feature name `feature_1`. -/
theorem C5_feature_query_narrows_or_404_witness :
    (¬ "user_1_test" = "") ∧ (¬ "feature_1" = "")
    ∧ (([{ identifier := "user_1_test", environment_api_key := "key0",
           identity_traits := [], identity_overrides := [] }] : List Identity).find?
          (identityMatches env0.api_key "user_1_test")
        = some { identifier := "user_1_test", environment_api_key := "key0",
                 identity_traits := [], identity_overrides := [] })
    ∧ ((∃ fs ∈ get_all_feature_states env0
          { identifier := "user_1_test", environment_api_key := "key0",
            identity_traits := [], identity_overrides := [] } [],
          fs.feature.name = "feature_1") →
        ∃ fs ∈ get_all_feature_states env0
            { identifier := "user_1_test", environment_api_key := "key0",
              identity_traits := [], identity_overrides := [] } [],
          fs.feature.name = "feature_1" ∧
          SDKIdentities_get
              [{ identifier := "user_1_test", environment_api_key := "key0",
                 identity_traits := [], identity_overrides := [] }] env0
              (some "user_1_test") (some "feature_1") []
            = ({ status := 200, body := serializeFeatureState fs },
               [{ identifier := "user_1_test", environment_api_key := "key0",
                  identity_traits := [], identity_overrides := [] }])) :=
  ⟨by decide, by decide, by decide,
    (C5_feature_query_narrows_or_404 _ env0 "user_1_test" "feature_1" _ []
      (by decide) (by decide) (by decide)).1⟩

/-- Mapping a character function preserves the prefix test. -/
theorem beginsWithL_map (f : Char → Char) :
    ∀ (p s : List Char), beginsWithL p s = true →
      beginsWithL (p.map f) (s.map f) = true := by
  intro p
  induction p with
  | nil => intro s _; rfl
  | cons a ps ih =>
      intro s h
      cases s with
      | nil => simp [beginsWithL] at h
      | cons b ss =>
          simp [beginsWithL] at h ⊢
          exact ⟨by rw [h.1], ih ss h.2⟩

/-- Mapping a character function preserves substring containment. -/
theorem containsL_map (f : Char → Char) :
    ∀ (n s : List Char), containsL n s = true →
      containsL (n.map f) (s.map f) = true := by
  intro n s
  induction s with
  | nil =>
      intro h
      cases n with
      | nil => exact h
      | cons a t => simp [containsL, List.isEmpty] at h
  | cons c rest ih =>
      intro h
      simp only [containsL] at h
      rcases Bool.or_eq_true_iff.mp h with h1 | h2
      · have := beginsWithL_map f n (c :: rest) h1
        simp only [containsL, List.map_cons]
        simp only [List.map_cons] at this
        rw [this]
        rfl
      · have := ih h2
        simp [containsL, this]

/-- Claim C2: a quoted search term produces an exact-match condition on both
backends, matching exactly the identifiers equal to the quote-stripped term;
an unquoted term produces a containment filter on the relational backend
(so every identifier containing the term is returned) and a prefix
condition on the document backend (matching exactly the identifiers the
term is a prefix of). -/
theorem C2_search_term_backend_semantics (q identifier : String) :
    ((str_begins_with q "\"" && str_ends_with q "\"") = true →
      get_search_kwargs_django q = DjangoIdentifierFilter.exact (remove_char '"' q)
      ∧ get_search_expression_dynamo q
          = DynamoKeyCondition.eq "identifier" (remove_char '"' q)
      ∧ (djangoFilterMatches (get_search_kwargs_django q) identifier = true ↔
          identifier = remove_char '"' q)
      ∧ (dynamoConditionMatches (get_search_expression_dynamo q) identifier = true ↔
          identifier = remove_char '"' q))
    ∧ ((str_begins_with q "\"" && str_ends_with q "\"") = false →
      get_search_kwargs_django q = DjangoIdentifierFilter.icontains q
      ∧ get_search_expression_dynamo q
          = DynamoKeyCondition.begins_with "identifier" q
      ∧ (containsL q.toList identifier.toList = true →
          djangoFilterMatches (get_search_kwargs_django q) identifier = true)
      ∧ (dynamoConditionMatches (get_search_expression_dynamo q) identifier = true ↔
          beginsWithL q.toList identifier.toList = true)) := by
  constructor
  · intro hq
    simp [get_search_kwargs_django, get_search_expression_dynamo, hq,
      djangoFilterMatches, dynamoConditionMatches]
  · intro hq
    refine ⟨?_, ?_, ?_, ?_⟩
    · simp [get_search_kwargs_django, hq]
    · simp [get_search_expression_dynamo, hq]
    · intro hc
      simp only [get_search_kwargs_django, hq, Bool.false_eq_true, if_false,
        djangoFilterMatches, lowerL]
      exact containsL_map Char.toLower q.toList identifier.toList hc
    · simp [get_search_expression_dynamo, hq, dynamoConditionMatches]

/-- Witness for claim C2 at the quoted term around `abc` and the unquoted
term `abc`. -/
theorem C2_search_term_backend_semantics_witness :
    ((str_begins_with "\"abc\"" "\"" && str_ends_with "\"abc\"" "\"") = true)
    ∧ (djangoFilterMatches (get_search_kwargs_django "\"abc\"") "abc" = true ↔
        ("abc" : String) = remove_char '"' "\"abc\"")
    ∧ ((str_begins_with "abc" "\"" && str_ends_with "abc" "\"") = false)
    ∧ (containsL "abc".toList "xabcy".toList = true →
        djangoFilterMatches (get_search_kwargs_django "abc") "xabcy" = true)
    ∧ (dynamoConditionMatches (get_search_expression_dynamo "abc") "abcdef" = true ↔
        beginsWithL "abc".toList "abcdef".toList = true) :=
  ⟨by decide,
    ((C2_search_term_backend_semantics "\"abc\"" "abc").1 (by decide)).2.2.1,
    by decide,
    ((C2_search_term_backend_semantics "abc" "xabcy").2 (by decide)).2.2.1,
    ((C2_search_term_backend_semantics "abc" "abcdef").2 (by decide)).2.2.2⟩

/-- Claim C10: whenever the term starts and ends with a double quote, both
backends exact-match against the term with every double-quote character
removed, interior quotes included; the single-character term consisting of
one double quote falls in this case (its target is the empty identifier, as
the witness evaluates). -/
theorem C10_quoted_term_strips_every_quote
    (q : String)
    (h1 : str_begins_with q "\"" = true) (h2 : str_ends_with q "\"" = true) :
    get_search_kwargs_django q = DjangoIdentifierFilter.exact (remove_char '"' q)
    ∧ get_search_expression_dynamo q
        = DynamoKeyCondition.eq "identifier" (remove_char '"' q)
    ∧ ∀ identifier,
        (djangoFilterMatches (get_search_kwargs_django q) identifier = true ↔
          identifier = remove_char '"' q)
        ∧ (dynamoConditionMatches (get_search_expression_dynamo q) identifier = true ↔
          identifier = remove_char '"' q) := by
  simp [get_search_kwargs_django, get_search_expression_dynamo, h1, h2,
    djangoFilterMatches, dynamoConditionMatches]

/-- Witness for claim C10 at the interior-quote term and at the single
double-quote term. -/
theorem C10_quoted_term_strips_every_quote_witness :
    (str_begins_with "\"a\"b\"" "\"" = true) ∧ (str_ends_with "\"a\"b\"" "\"" = true)
    ∧ get_search_kwargs_django "\"a\"b\""
        = DjangoIdentifierFilter.exact (remove_char '"' "\"a\"b\"")
    ∧ remove_char '"' "\"a\"b\"" = "ab"
    ∧ (str_begins_with "\"" "\"" = true) ∧ (str_ends_with "\"" "\"" = true)
    ∧ get_search_kwargs_django "\""
        = DjangoIdentifierFilter.exact (remove_char '"' "\"")
    ∧ remove_char '"' "\"" = ""
    ∧ (djangoFilterMatches (get_search_kwargs_django "\"") "" = true ↔
        ("" : String) = remove_char '"' "\"") :=
  ⟨by decide, by decide,
    (C10_quoted_term_strips_every_quote "\"a\"b\"" (by decide) (by decide)).1,
    by decide, by decide, by decide,
    (C10_quoted_term_strips_every_quote "\"" (by decide) (by decide)).1,
    by decide,
    ((C10_quoted_term_strips_every_quote "\"" (by decide) (by decide)).2.2 "").1⟩

/-- Point-lookup agreement of the two stores: when the composite key of each
stored identity agrees with the relational key predicate, the document-store
lookup by composite key returns what the relational lookup returns. -/
theorem doc_get_agrees (k ident : String) :
    ∀ (store : List Identity),
      (∀ i ∈ store, (doc_key i == composite_key k ident)
        = identityMatches k ident i) →
      doc_get (doc_store_of store) (composite_key k ident) = rel_get store k ident := by
  intro store
  induction store with
  | nil => intro _; rfl
  | cons a t ih =>
      intro h_inj
      have ha := h_inj a (by simp)
      have ht := fun i hi => h_inj i (List.mem_cons_of_mem a hi)
      cases hm : identityMatches k ident a with
      | true =>
          have : (doc_key a == composite_key k ident) = true := by rw [ha, hm]
          simp [doc_store_of, doc_get, rel_get, List.find?_cons, this, hm]
      | false =>
          have : (doc_key a == composite_key k ident) = false := by rw [ha, hm]
          simpa [doc_store_of, doc_get, rel_get, List.find?_cons, this, hm]
            using ih ht

/-- Delete agreement of the two stores under the same key-agreement
hypothesis: deleting by composite key in the document store represents
deleting by `(environment, identifier)` in the relational store. -/
theorem doc_delete_agrees (k ident : String) :
    ∀ (store : List Identity),
      (∀ i ∈ store, (doc_key i == composite_key k ident)
        = identityMatches k ident i) →
      doc_delete (doc_store_of store) (composite_key k ident)
        = doc_store_of (rel_delete store k ident) := by
  intro store
  induction store with
  | nil => intro _; rfl
  | cons a t ih =>
      intro h_inj
      have ha := h_inj a (by simp)
      have ht := fun i hi => h_inj i (List.mem_cons_of_mem a hi)
      cases hm : identityMatches k ident a with
      | true =>
          have : (doc_key a == composite_key k ident) = true := by rw [ha, hm]
          simpa [doc_store_of, doc_delete, rel_delete, this, hm] using ih ht
      | false =>
          have : (doc_key a == composite_key k ident) = false := by rw [ha, hm]
          simpa [doc_store_of, doc_delete, rel_delete, this, hm] using ih ht

/-- Claim C3: every `IdentityViewSet` operation (get one, list, create,
update, delete) goes to the document store exactly when the project's
`enable_dynamo_db` flag is set (a property of the project, not of the
request); the document is keyed by `{environment_api_key}_{identifier}`;
and on stores related by the composite-key representation (with the key
encoding collision-free for the queried key) the two backends answer point
lookups, deletes, creates and listing identically to the caller. -/
theorem C3_backend_dispatch_and_store_equivalence
    (env : Environment) (identifier : String) (inst : Identity)
    (store : List Identity) (i0 : Identity) :
    ((IdentityViewSet_get_object env identifier).uses_dynamo
        = env.project.enable_dynamo_db)
    ∧ ((IdentityViewSet_list env).uses_dynamo = env.project.enable_dynamo_db)
    ∧ ((IdentityViewSet_perform_create env identifier).uses_dynamo
        = env.project.enable_dynamo_db)
    ∧ ((IdentityViewSet_perform_update env identifier).uses_dynamo
        = env.project.enable_dynamo_db)
    ∧ ((IdentityViewSet_perform_destroy env inst).uses_dynamo
        = env.project.enable_dynamo_db)
    ∧ (env.project.enable_dynamo_db = true →
        IdentityViewSet_get_object env identifier
          = IdentityBackendCall.get_item_dynamodb
              (env.api_key ++ "_" ++ identifier))
    ∧ ((∀ i ∈ store, (doc_key i == composite_key env.api_key identifier)
          = identityMatches env.api_key identifier i) →
        doc_get (doc_store_of store) (composite_key env.api_key identifier)
          = rel_get store env.api_key identifier
        ∧ doc_delete (doc_store_of store) (composite_key env.api_key identifier)
          = doc_store_of (rel_delete store env.api_key identifier))
    ∧ doc_store_of (rel_create store i0) = doc_put (doc_store_of store) i0
    ∧ (doc_store_of store).map Prod.snd = store := by
  refine ⟨?_, ?_, ?_, ?_, ?_, ?_, ?_, ?_, ?_⟩
  · cases h : env.project.enable_dynamo_db <;>
      simp [IdentityViewSet_get_object, h, IdentityBackendCall.uses_dynamo]
  · cases h : env.project.enable_dynamo_db <;>
      simp [IdentityViewSet_list, h, IdentityBackendCall.uses_dynamo]
  · cases h : env.project.enable_dynamo_db <;>
      simp [IdentityViewSet_perform_create, h, IdentityBackendCall.uses_dynamo]
  · cases h : env.project.enable_dynamo_db <;>
      simp [IdentityViewSet_perform_update, h, IdentityBackendCall.uses_dynamo]
  · cases h : env.project.enable_dynamo_db <;>
      simp [IdentityViewSet_perform_destroy, h, IdentityBackendCall.uses_dynamo]
  · intro h
    simp [IdentityViewSet_get_object, h, composite_key]
  · intro h_inj
    exact ⟨doc_get_agrees env.api_key identifier store h_inj,
      doc_delete_agrees env.api_key identifier store h_inj⟩
  · simp [doc_store_of, rel_create, doc_put]
  · simp [doc_store_of, List.map_map, Function.comp_def]

/-- A DynamoDB-enabled environment used by the C3 witness. -/
def env1 : Environment :=
  { api_key := "key0"
    project := { enable_dynamo_db := true, organisation := org0 }
    feature_defaults := [] }

/-- Witness for claim C3 at the DynamoDB-enabled environment `env1` and the
one-identity store `[identityOther]`. -/
theorem C3_backend_dispatch_and_store_equivalence_witness :
    ((IdentityViewSet_get_object env1 "user_1_test").uses_dynamo
        = env1.project.enable_dynamo_db)
    ∧ (IdentityViewSet_get_object env1 "user_1_test"
        = IdentityBackendCall.get_item_dynamodb
            (env1.api_key ++ "_" ++ "user_1_test"))
    ∧ (doc_get (doc_store_of [identityOther])
          (composite_key env1.api_key "user_1_test")
        = rel_get [identityOther] env1.api_key "user_1_test")
    ∧ doc_store_of (rel_create [identityOther] identityOther)
        = doc_put (doc_store_of [identityOther]) identityOther :=
  ⟨(C3_backend_dispatch_and_store_equivalence env1 "user_1_test" identityOther
      [identityOther] identityOther).1,
   (C3_backend_dispatch_and_store_equivalence env1 "user_1_test" identityOther
      [identityOther] identityOther).2.2.2.2.2.1 rfl,
   ((C3_backend_dispatch_and_store_equivalence env1 "user_1_test" identityOther
      [identityOther] identityOther).2.2.2.2.2.2.1 (by decide)).1,
   (C3_backend_dispatch_and_store_equivalence env1 "user_1_test" identityOther
      [identityOther] identityOther).2.2.2.2.2.2.2.1⟩

/-- Claim C7 is refuted by the code: the webhook payload generation executes
a leftover `breakpoint()` (suspending the synchronous dispatch on a debugger
prompt, with no bound), and the sink POST is issued with no timeout at all
(`requests.post` with no `timeout` argument waits forever), so no per-sink
bounded timeout exists; the effect traces of the embedded wrapper show
both. -/
theorem C7_webhook_dispatch_blocks_without_bound :
    (∀ (identity : Identity) (feature_states : List FeatureState)
        (segments : List SegmentInfo),
      (generate_user_data identity feature_states segments).1
        = [WebhookEffect.debugger_break])
    ∧ (∀ (w : WebhookWrapper) (user_data : Json),
      identify_user w user_data
        = [WebhookEffect.http_post w.url none,
           WebhookEffect.log "Sent event to Webhook. Response code was: %s"])
    ∧ (∀ (w : WebhookWrapper) (user_data : Json) (t : Nat),
      WebhookEffect.http_post w.url (some t) ∉ identify_user w user_data) := by
  refine ⟨fun _ _ _ => rfl, fun _ _ => rfl, ?_⟩
  intro w d t h
  simp [identify_user] at h

/-- Claim C8: the webhook wrapper's `generate_user_data` payload has exactly
the four keys `identity`, `traits`, `flags`, `segments` (the structured
variant), the `identity` value is the identity's identifier string, and no
`app_id` or `event` field appears. -/
theorem C8_generate_user_data_structured_fields
    (identity : Identity) (feature_states : List FeatureState)
    (segments : List SegmentInfo) :
    ((generate_user_data identity feature_states segments).2).objKeys
      = ["identity", "traits", "flags", "segments"]
    ∧ ((generate_user_data identity feature_states segments).2).objLookup "identity"
      = some (Json.str identity.identifier)
    ∧ ((generate_user_data identity feature_states segments).2).objLookup "app_id"
      = none
    ∧ ((generate_user_data identity feature_states segments).2).objLookup "event"
      = none :=
  ⟨rfl, rfl, rfl, rfl⟩

end Flagsmith
